import Mathlib

/-!
Verification of the resource-validation layer of the pumex engine
(include/pumex/Pipeline.h and the GPU-cull example source).

Machine handles (VkDevice, VkSurfaceKHR, VkDescriptorSet, ...) are opaque
values in the C++ code; we model each as a `Nat`, with `VK_NULL_HANDLE = 0`.
`std::unordered_map` is modelled as an association list, `std::vector` as a
`List`.  Functions whose bodies appear in the header (PerSurfaceData::resize,
GraphicsPipeline::hasDynamicState / hasShaderStage) are translated from that
source; operations whose bodies live in the missing Pipeline.cpp are modelled
from the spec and carry a doc comment saying so.
-/

namespace Pumex

/-- `VK_NULL_HANDLE` modelled as the handle value 0. -/
def VK_NULL_HANDLE : Nat := 0

/-- `std::unordered_map::find` on an association list keyed by an opaque handle. -/
def alistLookup (k : Nat) : List (Nat × α) → Option α
  | [] => none
  | (k', v) :: rest => if k' = k then some v else alistLookup k rest

/-- Insert-or-replace on an association list (`map[k] = v` / `map.insert`). -/
def alistInsert (k : Nat) (v : α) : List (Nat × α) → List (Nat × α)
  | [] => [(k, v)]
  | (k', v') :: rest =>
    if k' = k then (k, v) :: rest else (k', v') :: alistInsert k v rest

/-- `std::vector::resize(n, value)`: the first `min n size` existing elements are
kept unchanged; if `n` exceeds the current size, copies of `value` are appended. -/
def vecResize (v : List α) (n : Nat) (value : α) : List α :=
  if n ≤ v.length then v.take n else v ++ List.replicate (n - v.length) value

/-- `DescriptorSetLayoutBinding` (Pipeline.h lines 44-51); enum values are opaque tags. -/
structure DescriptorSetLayoutBinding where
  binding : Nat
  bindingCount : Nat
  descriptorType : Nat
  stageFlags : Nat
deriving DecidableEq

/-- `DescriptorSet::PerSurfaceData` (Pipeline.h lines 149-164). -/
structure PerSurfaceData where
  descriptorSet : List Nat
  valid : List Bool
  device : Nat
deriving DecidableEq

/-- `PerSurfaceData::resize(ac)` (Pipeline.h lines 156-160):
`descriptorSet.resize(ac, VK_NULL_HANDLE); valid.resize(ac, false);`. -/
def PerSurfaceData.resize (ac : Nat) (s : PerSurfaceData) : PerSurfaceData :=
  { s with descriptorSet := vecResize s.descriptorSet ac VK_NULL_HANDLE
           valid := vecResize s.valid ac false }

/-- The `PerSurfaceData(ac, d)` constructor (Pipeline.h lines 151-155): stores the
device and calls `resize(ac)` on the default-constructed (empty) vectors. -/
def PerSurfaceData.create (ac : Nat) (d : Nat) : PerSurfaceData :=
  PerSurfaceData.resize ac { descriptorSet := [], valid := [], device := d }

/-- Clearing the validity flag of one in-flight index (`valid[idx] = false`,
cf. Pipeline.h lines 161-162). -/
def PerSurfaceData.invalidateIndex (idx : Nat) (p : PerSurfaceData) : PerSurfaceData :=
  { p with valid := p.valid.set idx false }

/-- `DescriptorSet` (Pipeline.h lines 123-171): layout/pool references, per-surface
state, bound descriptors (binding slot ↦ backing resource handles), and the
in-flight count `activeCount`. -/
structure DescriptorSetM where
  layout : Nat
  pool : Nat
  perSurfaceData : List (Nat × PerSurfaceData)
  descriptors : List (Nat × List Nat)
  activeCount : Nat
deriving DecidableEq

/-- The `DescriptorSet(layout, pool)` constructor (Pipeline.h lines 127, 166-170):
takes no in-flight count; the maps are default-constructed empty and
`activeCount` has default member initializer `1` (line 170). -/
def DescriptorSetM.create (layout pool : Nat) : DescriptorSetM :=
  { layout := layout, pool := pool, perSurfaceData := [], descriptors := []
    activeCount := 1 }

/-- Whether some bound Descriptor of this set references resource `r`. -/
def DescriptorSetM.bindsResource (r : Nat) (s : DescriptorSetM) : Bool :=
  s.descriptors.any (fun d => d.2.contains r)

/-- Modelled from the spec: `DescriptorSet::invalidate` (declared Pipeline.h line
133, body in the missing Pipeline.cpp).  Spec §4.3/§8: invalidation clears the
validity flag of the current in-flight index `idx`, for each surface, and no
other index. -/
def DescriptorSetM.invalidate (idx : Nat) (s : DescriptorSetM) : DescriptorSetM :=
  { s with perSurfaceData :=
      s.perSurfaceData.map (fun q => (q.1, q.2.invalidateIndex idx)) }

/-- Modelled from the spec: `Descriptor::invalidate` fan-out (declared Pipeline.h
line 113, body missing).  Spec §4.2: mutating a backing resource calls back into
every Descriptor registered on it, which invalidates its owning set; sets not
binding the resource are untouched. -/
def invalidateResource (r idx : Nat) (sets : List DescriptorSetM) : List DescriptorSetM :=
  sets.map (fun s => if s.bindsResource r then s.invalidate idx else s)

/-- Modelled from the spec: `DescriptorSet::validate` (declared Pipeline.h line
132, body missing).  Spec §4.3: create the per-surface entry with `activeCount`
slots if absent; if the active index is already valid this is a no-op; otherwise
allocate a native set from the pool (or reuse the previously allocated handle
for that index), write the binding values and mark the index valid.  The fresh
handle value `surface + idx + 1` is an arbitrary non-null token. -/
def DescriptorSetM.validate (surface device idx : Nat) (s : DescriptorSetM) : DescriptorSetM :=
  let psd :=
    match alistLookup surface s.perSurfaceData with
    | some p => p
    | none => PerSurfaceData.create s.activeCount device
  let psd' :=
    if psd.valid.getD idx false then psd
    else
      { psd with
        descriptorSet := psd.descriptorSet.set idx
          (if psd.descriptorSet.getD idx VK_NULL_HANDLE = VK_NULL_HANDLE
           then surface + idx + 1
           else psd.descriptorSet.getD idx VK_NULL_HANDLE)
        valid := psd.valid.set idx true }
  { s with perSurfaceData := alistInsert surface psd' s.perSurfaceData }

/-- Modelled from the spec: `DescriptorSet::getHandle` (declared Pipeline.h line
144, body missing).  Spec §4.3: fails with a "set not validated for this index"
condition if requested before validation. -/
def DescriptorSetM.getHandle (surface idx : Nat) (s : DescriptorSetM) : Except String Nat :=
  match alistLookup surface s.perSurfaceData with
  | none => Except.error "not validated"
  | some psd =>
    if psd.valid.getD idx false
    then Except.ok (psd.descriptorSet.getD idx VK_NULL_HANDLE)
    else Except.error "not validated"

/-- Modelled from the spec: propagation of an in-flight-count change (spec §6:
surfaces may resize this count at swap-chain recreation).  Applies the source's
`PerSurfaceData::resize` to every surface entry and records the new count. -/
def DescriptorSetM.resizeInFlight (m : Nat) (s : DescriptorSetM) : DescriptorSetM :=
  { s with activeCount := m
           perSurfaceData := s.perSurfaceData.map (fun q => (q.1, q.2.resize m)) }

/-- Modelled from the spec: the check-then-create step shared by every per-device
handle cache (spec §4.1, §5: `validate(device)` creates the native handle for
`device` if absent, else is a no-op; creation is idempotent, first caller wins).
The fresh handle value `device + 1` is an arbitrary non-null token.  Returns the
new cache and whether a native creation call happened. -/
def cacheValidate (device : Nat) (cache : List (Nat × Nat)) : List (Nat × Nat) × Bool :=
  match alistLookup device cache with
  | some _ => (cache, false)
  | none => (alistInsert device (device + 1) cache, true)

/-- Modelled from the spec: `getHandle(device)` on a per-device cache fails with a
"not validated" condition if called before `validate` (spec §4.1, §7). -/
def cacheGetHandle (device : Nat) (cache : List (Nat × Nat)) : Except String Nat :=
  match alistLookup device cache with
  | some h => Except.ok h
  | none => Except.error "not validated"

/-- Number of native creation calls performed for device `d` by a sequence of
`validate` calls (one list element per call, each naming its device), starting
from `cache`.  The calls run in the order of the list: under the per-object lock
each check-then-create step is atomic, so any concurrent execution is some such
sequence. -/
def cacheCreationsFor (d : Nat) (cache : List (Nat × Nat)) : List Nat → Nat
  | [] => 0
  | x :: xs =>
    let r := cacheValidate x cache
    (if x = d then (if r.2 then 1 else 0) else 0) + cacheCreationsFor d r.1 xs

/-- `DescriptorSetLayout` (Pipeline.h lines 54-75): bindings plus a per-device
cache `perDeviceData` whose entries hold one `VkDescriptorSetLayout` handle. -/
structure DescriptorSetLayoutM where
  bindings : List DescriptorSetLayoutBinding
  perDeviceData : List (Nat × Nat)
deriving DecidableEq

/-- The `DescriptorSetLayout(bindings)` constructor (Pipeline.h line 58):
the per-device map is default-constructed empty. -/
def DescriptorSetLayoutM.create (bindings : List DescriptorSetLayoutBinding) :
    DescriptorSetLayoutM :=
  { bindings := bindings, perDeviceData := [] }

/-- Modelled from the spec: `DescriptorSetLayout::validate` (declared Pipeline.h
line 63, body in the missing Pipeline.cpp); see `cacheValidate`. -/
def DescriptorSetLayoutM.validate (device : Nat) (l : DescriptorSetLayoutM) :
    DescriptorSetLayoutM × Bool :=
  let r := cacheValidate device l.perDeviceData
  ({ l with perDeviceData := r.1 }, r.2)

/-- Modelled from the spec: `DescriptorSetLayout::getHandle` (declared Pipeline.h
line 64, body missing); see `cacheGetHandle`. -/
def DescriptorSetLayoutM.getHandle (device : Nat) (l : DescriptorSetLayoutM) :
    Except String Nat :=
  cacheGetHandle device l.perDeviceData

/-- `DescriptorPool` (Pipeline.h lines 77-97): pool capacity fixed at
construction, bindings, and a per-device `VkDescriptorPool` cache. -/
structure DescriptorPoolM where
  poolSize : Nat
  bindings : List DescriptorSetLayoutBinding
  perDeviceData : List (Nat × Nat)
deriving DecidableEq

/-- The `DescriptorPool(poolSize, bindings)` constructor (Pipeline.h line 80). -/
def DescriptorPoolM.create (poolSize : Nat) (bindings : List DescriptorSetLayoutBinding) :
    DescriptorPoolM :=
  { poolSize := poolSize, bindings := bindings, perDeviceData := [] }

/-- Modelled from the spec: `DescriptorPool::validate` (declared Pipeline.h line
85, body missing); see `cacheValidate`. -/
def DescriptorPoolM.validate (device : Nat) (p : DescriptorPoolM) :
    DescriptorPoolM × Bool :=
  let r := cacheValidate device p.perDeviceData
  ({ p with perDeviceData := r.1 }, r.2)

/-- Modelled from the spec: `DescriptorPool::getHandle` (declared Pipeline.h line
86, body missing); see `cacheGetHandle`. -/
def DescriptorPoolM.getHandle (device : Nat) (p : DescriptorPoolM) :
    Except String Nat :=
  cacheGetHandle device p.perDeviceData

/-- `PipelineLayout` (Pipeline.h lines 173-193). -/
structure PipelineLayoutM where
  descriptorSetLayouts : List Nat
  perDeviceData : List (Nat × Nat)
deriving DecidableEq

/-- The `PipelineLayout()` constructor (Pipeline.h line 176). -/
def PipelineLayoutM.create : PipelineLayoutM :=
  { descriptorSetLayouts := [], perDeviceData := [] }

/-- Modelled from the spec: `PipelineLayout::validate` (declared Pipeline.h line
181, body missing); see `cacheValidate`. -/
def PipelineLayoutM.validate (device : Nat) (l : PipelineLayoutM) :
    PipelineLayoutM × Bool :=
  let r := cacheValidate device l.perDeviceData
  ({ l with perDeviceData := r.1 }, r.2)

/-- Modelled from the spec: `PipelineLayout::getHandle` (declared Pipeline.h line
182, body missing); see `cacheGetHandle`. -/
def PipelineLayoutM.getHandle (device : Nat) (l : PipelineLayoutM) :
    Except String Nat :=
  cacheGetHandle device l.perDeviceData

/-- `PipelineCache` (Pipeline.h lines 196-214). -/
structure PipelineCacheM where
  perDeviceData : List (Nat × Nat)
deriving DecidableEq

/-- The `PipelineCache()` constructor (Pipeline.h line 199). -/
def PipelineCacheM.create : PipelineCacheM :=
  { perDeviceData := [] }

/-- Modelled from the spec: `PipelineCache::validate` (declared Pipeline.h line
204, body missing); see `cacheValidate`. -/
def PipelineCacheM.validate (device : Nat) (c : PipelineCacheM) :
    PipelineCacheM × Bool :=
  let r := cacheValidate device c.perDeviceData
  ({ c with perDeviceData := r.1 }, r.2)

/-- Modelled from the spec: `PipelineCache::getHandle` (declared Pipeline.h line
205, body missing); see `cacheGetHandle`. -/
def PipelineCacheM.getHandle (device : Nat) (c : PipelineCacheM) :
    Except String Nat :=
  cacheGetHandle device c.perDeviceData

/-- `Pipeline::PerDeviceData` (Pipeline.h lines 234-238): a cached native
pipeline handle plus a validity flag, defaults `VK_NULL_HANDLE` / `false`. -/
structure PipelinePerDeviceData where
  pipeline : Nat
  valid : Bool
deriving DecidableEq

/-- `Pipeline` (Pipeline.h lines 216-240): cache/layout references plus the
per-device map of `PerDeviceData`. -/
structure PipelineM where
  pipelineCache : Nat
  pipelineLayout : Nat
  perDeviceData : List (Nat × PipelinePerDeviceData)
deriving DecidableEq

/-- The `Pipeline(pipelineCache, pipelineLayout)` constructor (Pipeline.h line
220): the per-device map is default-constructed empty. -/
def PipelineM.create (pipelineCache pipelineLayout : Nat) : PipelineM :=
  { pipelineCache := pipelineCache, pipelineLayout := pipelineLayout
    perDeviceData := [] }

/-- Modelled from the spec: `Pipeline::internalInvalidate` (declared Pipeline.h
line 225 "invalidate pipelines", body in the missing Pipeline.cpp).  Spec §4.4:
discards the cached native pipeline for every device, forcing rebuild on next
`validate`; nothing else changes. -/
def PipelineM.internalInvalidate (p : PipelineM) : PipelineM :=
  { p with perDeviceData :=
      p.perDeviceData.map (fun q => (q.1, { q.2 with valid := false })) }

/-- Modelled from the spec: `Pipeline::validate` (body missing).  Spec §4.4 and
§2: if the entry for `device` is absent or marked invalid, (re)build the native
pipeline exactly once and mark it valid; otherwise a no-op.  Returns whether a
native creation call happened. -/
def PipelineM.validate (device : Nat) (p : PipelineM) : PipelineM × Bool :=
  match alistLookup device p.perDeviceData with
  | some pdd =>
    if pdd.valid then (p, false)
    else
      ({ p with perDeviceData :=
           alistInsert device { pipeline := device + 1, valid := true } p.perDeviceData },
       true)
  | none =>
    ({ p with perDeviceData :=
         alistInsert device { pipeline := device + 1, valid := true } p.perDeviceData },
     true)

/-- Modelled from the spec: `Pipeline::getHandle` (declared Pipeline.h line 226,
body missing); fails with a "not validated" condition before any `validate`. -/
def PipelineM.getHandle (device : Nat) (p : PipelineM) : Except String Nat :=
  match alistLookup device p.perDeviceData with
  | some pdd => Except.ok pdd.pipeline
  | none => Except.error "not validated"

/-- The classes declared in Pipeline.h that carry caches. -/
inductive PipelineClass
  | descriptorSetLayout
  | descriptorPool
  | descriptorSet
  | pipelineLayout
  | pipelineCache
  | pipeline
  | shaderModule
deriving DecidableEq

/-- Whether the class declares a `std::mutex` member, transcribed from the member
lists of Pipeline.h: `DescriptorSetLayout` (lines 54-75) and `Pipeline` (lines
216-240) and `ShaderModule` (lines 264-284) declare none; `DescriptorPool` (line
95), `DescriptorSet` (line 166), `PipelineLayout` (line 191) and `PipelineCache`
(line 212) each declare `mutable std::mutex mutex;`. -/
def hasMutexMember : PipelineClass → Bool
  | .descriptorSetLayout => false
  | .descriptorPool => true
  | .descriptorSet => true
  | .pipelineLayout => true
  | .pipelineCache => true
  | .pipeline => false
  | .shaderModule => false

/-- `ShaderStageDefinition` (Pipeline.h lines 287-294); the stage enum and the
shader-module reference are opaque. -/
structure ShaderStageDefinition where
  stage : Nat
  shaderModule : Nat
  entryPoint : String
deriving DecidableEq

/-- The fields of `GraphicsPipeline` (Pipeline.h lines 296-363) that its two
inline queries read. -/
structure GraphicsPipelineM where
  dynamicStates : List Nat
  shaderStages : List ShaderStageDefinition
deriving DecidableEq

/-- The loop of `GraphicsPipeline::hasDynamicState` (Pipeline.h lines 383-389):
scan `dynamicStates`, returning true at the first element equal to `state`. -/
def scanDynamicStates (state : Nat) : List Nat → Bool
  | [] => false
  | d :: rest => if d = state then true else scanDynamicStates state rest

/-- `GraphicsPipeline::hasDynamicState(state)` (Pipeline.h lines 383-389). -/
def GraphicsPipelineM.hasDynamicState (p : GraphicsPipelineM) (state : Nat) : Bool :=
  scanDynamicStates state p.dynamicStates

/-- The loop of `GraphicsPipeline::hasShaderStage` (Pipeline.h lines 391-397):
scan `shaderStages`, returning true at the first element whose `stage` field
equals `stage`. -/
def scanShaderStages (stage : Nat) : List ShaderStageDefinition → Bool
  | [] => false
  | s :: rest => if s.stage = stage then true else scanShaderStages stage rest

/-- `GraphicsPipeline::hasShaderStage(stage)` (Pipeline.h lines 391-397). -/
def GraphicsPipelineM.hasShaderStage (p : GraphicsPipelineM) (stage : Nat) : Bool :=
  scanShaderStages stage p.shaderStages

/-- `pumex::DrawIndexedIndirectCommand` as used by the GPU-cull example
(part_000): the indirect-draw record whose `firstInstance` field the prepare
functions rewrite. -/
structure DrawIndexedIndirectCommand where
  indexCount : Nat
  instanceCount : Nat
  firstIndex : Nat
  vertexOffset : Int
  firstInstance : Nat
deriving DecidableEq

/-- The type-count pass (part_000 lines 1198-1203 and 1230-1235): a vector of
`numTypes` zeros, then `typeCount[typeID]++` for every instance. -/
def computeTypeCount (numTypes : Nat) (instanceTypeIDs : List Nat) : List Nat :=
  instanceTypeIDs.foldl (fun tc t => tc.set t (tc.getD t 0 + 1))
    (List.replicate numTypes 0)

/-- The offsets construction (part_000 lines 1205-1207 and 1237-1239):
`offsets.push_back(typeCount[geomToType[i]])` for every geometry. -/
def geomInstanceCounts (typeCount : List Nat) (geomToType : List Nat) : List Nat :=
  geomToType.map (fun g => typeCount.getD g 0)

/-- The write-back loop (part_000 lines 1210-1217 and 1242-1249): walk `offsets`
and `results` together with a running `offsetSum`, storing the running sum into
`results[i].firstInstance` before adding `offsets[i]`.  Returns the rewritten
commands and the final `offsetSum`. -/
def writeFirstInstances :
    List Nat → List DrawIndexedIndirectCommand → Nat →
    List DrawIndexedIndirectCommand × Nat
  | [], rs, acc => (rs, acc)
  | _ :: _, [], acc => ([], acc)
  | o :: os, r :: rs, acc =>
    let p := writeFirstInstances os rs (acc + o)
    ({ r with firstInstance := acc } :: p.1, p.2)

/-- `GpuCullApplicationData::prepareStaticBuffersForRendering`, the
indirect-command part (part_000 lines 1196-1219): count instances per type, read
off per-geometry counts, rewrite `firstInstance` as the running sum, store the
rewritten commands and a zero-filled offset buffer of `offsetSum` entries
(`std::vector<uint32_t>(offsetSum)`). -/
def prepareStaticBuffersForRendering (numTypes : Nat) (instanceTypeIDs : List Nat)
    (geomToType : List Nat) (results : List DrawIndexedIndirectCommand) :
    List DrawIndexedIndirectCommand × List Nat :=
  let typeCount := computeTypeCount numTypes instanceTypeIDs
  let offs := geomInstanceCounts typeCount geomToType
  let p := writeFirstInstances offs results 0
  (p.1, List.replicate p.2 0)

/-- `GpuCullApplicationData::prepareDynamicBuffersForRendering`, the
indirect-command part (part_000 lines 1230-1251), textually identical to the
static variant's lines 1198-1219. -/
def prepareDynamicBuffersForRendering (numTypes : Nat) (instanceTypeIDs : List Nat)
    (geomToType : List Nat) (results : List DrawIndexedIndirectCommand) :
    List DrawIndexedIndirectCommand × List Nat :=
  let typeCount := computeTypeCount numTypes instanceTypeIDs
  let offs := geomInstanceCounts typeCount geomToType
  let p := writeFirstInstances offs results 0
  (p.1, List.replicate p.2 0)

/-! Helper lemmas about the container operations. -/

theorem alistLookup_insert_self (k : Nat) (v : α) (l : List (Nat × α)) :
    alistLookup k (alistInsert k v l) = some v := by
  induction l with
  | nil => simp [alistInsert, alistLookup]
  | cons q rest ih =>
    obtain ⟨k', v'⟩ := q
    by_cases h : k' = k
    · simp [alistInsert, h, alistLookup]
    · simp [alistInsert, h, alistLookup, ih]

theorem alistLookup_insert_ne (k k' : Nat) (v : α) (l : List (Nat × α)) (h : k' ≠ k) :
    alistLookup k (alistInsert k' v l) = alistLookup k l := by
  induction l with
  | nil => simp [alistInsert, alistLookup, h]
  | cons q rest ih =>
    obtain ⟨k'', v''⟩ := q
    by_cases h2 : k'' = k'
    · simp [alistInsert, h2, alistLookup, h]
    · by_cases h3 : k'' = k
      · simp [alistInsert, h2, alistLookup, h3, Ne.symm h]
      · simp [alistInsert, h2, alistLookup, h3, ih]

theorem alistLookup_map (k : Nat) (f : α → β) (l : List (Nat × α)) :
    alistLookup k (l.map (fun q => (q.1, f q.2))) = (alistLookup k l).map f := by
  induction l with
  | nil => simp [alistLookup]
  | cons q rest ih =>
    obtain ⟨k', v⟩ := q
    by_cases h : k' = k
    · simp [alistLookup, h]
    · simp [alistLookup, h, ih]

theorem getD_set_self (l : List α) (i : Nat) (a d : α) (h : i < l.length) :
    (l.set i a).getD i d = a := by
  induction l generalizing i with
  | nil => simp at h
  | cons x xs ih =>
    cases i with
    | zero => rfl
    | succ n =>
      simp only [List.set, List.getD_cons_succ]
      exact ih n (by simpa using h)

theorem getD_set_ne (l : List α) (i j : Nat) (a d : α) (h : i ≠ j) :
    (l.set i a).getD j d = l.getD j d := by
  induction l generalizing i j with
  | nil => simp
  | cons x xs ih =>
    cases i with
    | zero =>
      cases j with
      | zero => exact absurd rfl h
      | succ m => simp [List.set]
    | succ n =>
      cases j with
      | zero => simp [List.set]
      | succ m =>
        simp only [List.set, List.getD_cons_succ]
        exact ih n m (fun hh => h (by simp [hh]))

theorem getD_append_left (l l' : List α) (i : Nat) (d : α) (h : i < l.length) :
    (l ++ l').getD i d = l.getD i d := by
  induction l generalizing i with
  | nil => simp at h
  | cons x xs ih =>
    cases i with
    | zero => rfl
    | succ n =>
      simp only [List.cons_append, List.getD_cons_succ]
      exact ih n (by simpa using h)

theorem getD_append_right (l l' : List α) (i : Nat) (d : α) (h : l.length ≤ i) :
    (l ++ l').getD i d = l'.getD (i - l.length) d := by
  induction l generalizing i with
  | nil => simp
  | cons x xs ih =>
    cases i with
    | zero => simp at h
    | succ n =>
      simp only [List.cons_append, List.getD_cons_succ, List.length_cons]
      rw [ih n (by simpa using h)]
      simp [Nat.succ_sub_succ]

theorem getD_take (l : List α) (n i : Nat) (d : α) (h : i < n) :
    (l.take n).getD i d = l.getD i d := by
  induction l generalizing n i with
  | nil => simp
  | cons x xs ih =>
    cases n with
    | zero => simp at h
    | succ m =>
      cases i with
      | zero => rfl
      | succ j =>
        simp only [List.take_succ_cons, List.getD_cons_succ]
        exact ih m j (by omega)

theorem getD_replicate (m j : Nat) (a d : α) (h : j < m) :
    (List.replicate m a).getD j d = a := by
  induction m generalizing j with
  | zero => simp at h
  | succ n ih =>
    cases j with
    | zero => rfl
    | succ i =>
      simp only [List.replicate, List.getD_cons_succ]
      exact ih i (by omega)

theorem vecResize_length (v : List α) (n : Nat) (a : α) :
    (vecResize v n a).length = n := by
  unfold vecResize
  split
  · simp only [List.length_take]
    omega
  · simp only [List.length_append, List.length_replicate]
    omega

theorem vecResize_getD_old (v : List α) (n i : Nat) (a d : α)
    (h1 : i < v.length) (h2 : i < n) :
    (vecResize v n a).getD i d = v.getD i d := by
  unfold vecResize
  split
  · exact getD_take v n i d h2
  · exact getD_append_left v _ i d h1

theorem vecResize_getD_new (v : List α) (n i : Nat) (a d : α)
    (h1 : v.length ≤ i) (h2 : i < n) :
    (vecResize v n a).getD i d = a := by
  unfold vecResize
  split
  · omega
  · rw [getD_append_right v _ i d h1]
    exact getD_replicate _ _ a d (by omega)

theorem writeFirstInstances_snd (os : List Nat) :
    ∀ (rs : List DrawIndexedIndirectCommand) (acc : Nat), os.length ≤ rs.length →
    (writeFirstInstances os rs acc).2 = acc + os.sum := by
  induction os with
  | nil =>
    intro rs acc _
    simp [writeFirstInstances]
  | cons o os ih =>
    intro rs acc h
    cases rs with
    | nil => simp at h
    | cons r rs =>
      simp only [writeFirstInstances, List.sum_cons]
      rw [ih rs (acc + o) (by simpa using h)]
      omega

theorem writeFirstInstances_getD (os : List Nat) :
    ∀ (rs : List DrawIndexedIndirectCommand) (acc i : Nat) (d : DrawIndexedIndirectCommand),
    os.length ≤ rs.length → i < os.length →
    ((writeFirstInstances os rs acc).1.getD i d).firstInstance = acc + (os.take i).sum := by
  induction os with
  | nil =>
    intro rs acc i d _ hi
    simp at hi
  | cons o os ih =>
    intro rs acc i d hlen hi
    cases rs with
    | nil => simp at hlen
    | cons r rs =>
      cases i with
      | zero => simp [writeFirstInstances]
      | succ j =>
        simp only [writeFirstInstances, List.getD_cons_succ, List.take_succ_cons,
          List.sum_cons]
        rw [ih rs (acc + o) j d (by simpa using hlen) (by simpa using hi)]
        omega

theorem cacheValidate_of_some (d h : Nat) (cache : List (Nat × Nat))
    (hl : alistLookup d cache = some h) :
    cacheValidate d cache = (cache, false) := by
  simp [cacheValidate, hl]

theorem cacheValidate_lookup_isSome (d : Nat) (cache : List (Nat × Nat)) :
    (alistLookup d (cacheValidate d cache).1).isSome = true := by
  unfold cacheValidate
  cases hl : alistLookup d cache with
  | some h => simp [hl]
  | none => simp [alistLookup_insert_self]

theorem cacheCreationsFor_of_isSome (d : Nat) (seq : List Nat) :
    ∀ (cache : List (Nat × Nat)), (alistLookup d cache).isSome = true →
    cacheCreationsFor d cache seq = 0 := by
  induction seq with
  | nil =>
    intro cache _
    rfl
  | cons x xs ih =>
    intro cache hs
    cases hx : alistLookup x cache with
    | some h =>
      simp only [cacheCreationsFor, cacheValidate, hx]
      simpa using ih cache hs
    | none =>
      have hxd : x ≠ d := by
        intro he
        rw [he] at hx
        rw [hx] at hs
        simp at hs
      simp only [cacheCreationsFor, cacheValidate, hx, hxd, if_false]
      have : (alistLookup d (alistInsert x (x + 1) cache)).isSome = true := by
        rw [alistLookup_insert_ne d x (x + 1) cache hxd]
        exact hs
      simpa using ih _ this

theorem cacheCreationsFor_le_one (d : Nat) (seq : List Nat) :
    ∀ (cache : List (Nat × Nat)), cacheCreationsFor d cache seq ≤ 1 := by
  induction seq with
  | nil =>
    intro cache
    simp [cacheCreationsFor]
  | cons x xs ih =>
    intro cache
    cases hx : alistLookup x cache with
    | some h =>
      simp only [cacheCreationsFor, cacheValidate, hx]
      simpa using ih cache
    | none =>
      by_cases hxd : x = d
      · subst hxd
        simp only [cacheCreationsFor, cacheValidate, hx, if_true]
        have hz : cacheCreationsFor x (alistInsert x (x + 1) cache) xs = 0 :=
          cacheCreationsFor_of_isSome x xs _ (by simp [alistLookup_insert_self])
        simp [hz]
      · simp only [cacheCreationsFor, cacheValidate, hx, hxd, if_false]
        simpa using ih _

theorem cacheCreationsFor_fresh (d : Nat) (seq : List Nat) :
    ∀ (cache : List (Nat × Nat)), alistLookup d cache = none → d ∈ seq →
    cacheCreationsFor d cache seq = 1 := by
  induction seq with
  | nil =>
    intro cache _ hm
    simp at hm
  | cons x xs ih =>
    intro cache hn hm
    by_cases hxd : x = d
    · subst hxd
      simp only [cacheCreationsFor, cacheValidate, hn, if_true]
      have hz : cacheCreationsFor x (alistInsert x (x + 1) cache) xs = 0 :=
        cacheCreationsFor_of_isSome x xs _ (by simp [alistLookup_insert_self])
      simp [hz]
    · have hm' : d ∈ xs := by
        cases List.mem_cons.mp hm with
        | inl he => exact absurd he.symm hxd
        | inr h => exact h
      cases hx : alistLookup x cache with
      | some h =>
        simp only [cacheCreationsFor, cacheValidate, hx, hxd, if_false]
        simpa using ih cache hn hm'
      | none =>
        simp only [cacheCreationsFor, cacheValidate, hx, hxd, if_false]
        have hn' : alistLookup d (alistInsert x (x + 1) cache) = none := by
          rw [alistLookup_insert_ne d x (x + 1) cache hxd]
          exact hn
        simpa using ih _ hn' hm'

theorem scanDynamicStates_iff (state : Nat) (l : List Nat) :
    scanDynamicStates state l = true ↔ state ∈ l := by
  induction l with
  | nil => simp [scanDynamicStates]
  | cons x xs ih =>
    by_cases h : x = state
    · simp [scanDynamicStates, h]
    · simp [scanDynamicStates, h, ih, Ne.symm h]

theorem scanShaderStages_iff (stage : Nat) (l : List ShaderStageDefinition) :
    scanShaderStages stage l = true ↔ ∃ s ∈ l, s.stage = stage := by
  induction l with
  | nil => simp [scanShaderStages]
  | cons x xs ih =>
    by_cases h : x.stage = stage
    · simp [scanShaderStages, h]
    · simp [scanShaderStages, h, ih]

/-! Claim theorems. -/

/-- C1, counterexample: the claim says resizing the in-flight count from N to M
resets all M validity flags to invalid.  It is false: `PerSurfaceData::resize`
calls `std::vector::resize(ac, false)`, which keeps existing elements unchanged
and only fills appended slots.  Resizing the state with `valid = [true]` from
1 to 2 entries yields `[true, false]`, not `[false, false]`. -/
theorem claim_C1_counterexample :
    ¬ ((PerSurfaceData.resize 2
          { descriptorSet := [5], valid := [true], device := 0 }).valid
        = List.replicate 2 false) := by decide

/-- C1, amended: resizing the in-flight count from N to M resizes the
native-handle storage and the validity storage to exactly M entries; every slot
at index ≥ N holds the null handle with its validity flag invalid, while slots
below min(N, M) retain their previous contents (they are not reset); a
subsequent `validate(k)` for any k < M succeeds, leaving index k valid. -/
theorem claim_C1_resize (s : DescriptorSetM) (surface device : Nat)
    (psd : PerSurfaceData) (M k : Nat)
    (hfind : alistLookup surface s.perSurfaceData = some psd)
    (hk : k < M) :
    alistLookup surface (s.resizeInFlight M).perSurfaceData
        = some (psd.resize M) ∧
    (psd.resize M).descriptorSet.length = M ∧
    (psd.resize M).valid.length = M ∧
    (∀ i, psd.descriptorSet.length ≤ i → i < M →
        (psd.resize M).descriptorSet.getD i 1 = VK_NULL_HANDLE) ∧
    (∀ i, psd.valid.length ≤ i → i < M →
        (psd.resize M).valid.getD i true = false) ∧
    (∀ i, i < psd.valid.length → i < M →
        (psd.resize M).valid.getD i false = psd.valid.getD i false) ∧
    (∃ psd', alistLookup surface
          (((s.resizeInFlight M).validate surface device k).perSurfaceData)
            = some psd' ∧
        psd'.valid.getD k false = true) := by
  have hmap : alistLookup surface (s.resizeInFlight M).perSurfaceData
      = some (psd.resize M) := by
    simp [DescriptorSetM.resizeInFlight, alistLookup_map, hfind]
  refine ⟨hmap, vecResize_length _ _ _, vecResize_length _ _ _, ?_, ?_, ?_, ?_⟩
  · intro i h1 h2
    exact vecResize_getD_new _ _ _ _ _ h1 h2
  · intro i h1 h2
    exact vecResize_getD_new _ _ _ _ _ h1 h2
  · intro i h1 h2
    exact vecResize_getD_old _ _ _ _ _ h1 h2
  · simp only [DescriptorSetM.validate, hmap]
    cases hv : (psd.resize M).valid.getD k false with
    | true =>
      simp only [hv, if_true]
      exact ⟨psd.resize M, alistLookup_insert_self _ _ _, hv⟩
    | false =>
      simp only [hv, Bool.false_eq_true, if_false]
      refine ⟨_, alistLookup_insert_self _ _ _, ?_⟩
      exact getD_set_self _ _ _ _ (by
        have hl : (psd.resize M).valid.length = M := vecResize_length _ _ _
        omega)

/-- C1, witness for `claim_C1_resize` at a concrete state: one surface (key 7,
device 3) whose single in-flight slot is valid, resized from 1 to 2, then
validated at index 1. -/
theorem claim_C1_resize_witness :
    (alistLookup 7
        ({ layout := 0, pool := 0
           perSurfaceData :=
             [(7, { descriptorSet := [5], valid := [true], device := 3 })]
           descriptors := [], activeCount := 1 } : DescriptorSetM).perSurfaceData
      = some { descriptorSet := [5], valid := [true], device := 3 }) ∧
    1 < 2 ∧
    (∃ psd', alistLookup 7
          ((({ layout := 0, pool := 0
               perSurfaceData :=
                 [(7, { descriptorSet := [5], valid := [true], device := 3 })]
               descriptors := [], activeCount := 1 } :
                DescriptorSetM).resizeInFlight 2).validate 7 3
              1).perSurfaceData
          = some psd' ∧
        psd'.valid.getD 1 false = true) :=
  ⟨rfl, by decide,
    (claim_C1_resize
      { layout := 0, pool := 0
        perSurfaceData :=
          [(7, { descriptorSet := [5], valid := [true], device := 3 })]
        descriptors := [], activeCount := 1 }
      7 3 { descriptorSet := [5], valid := [true], device := 3 } 2 1 rfl
      (by decide)).2.2.2.2.2.2⟩

/-- C2: invalidating a backing resource bound (through Descriptors) in two
DescriptorSets A and B clears the validity flag of the current in-flight index
of both A and B, and leaves every other in-flight index of A and of B (and the
native handles) unchanged. -/
theorem claim_C2_invalidation_fanout (sets : List DescriptorSetM) (r idx : Nat)
    (A B : DescriptorSetM) (hA : A ∈ sets) (hB : B ∈ sets)
    (hAr : A.bindsResource r = true) (hBr : B.bindsResource r = true) :
    A.invalidate idx ∈ invalidateResource r idx sets ∧
    B.invalidate idx ∈ invalidateResource r idx sets ∧
    (∀ S : DescriptorSetM, ∀ surface psd,
      alistLookup surface S.perSurfaceData = some psd →
      alistLookup surface (S.invalidate idx).perSurfaceData
          = some (psd.invalidateIndex idx) ∧
      (idx < psd.valid.length →
          (psd.invalidateIndex idx).valid.getD idx true = false) ∧
      (psd.invalidateIndex idx).descriptorSet = psd.descriptorSet ∧
      (∀ j d, j ≠ idx →
          (psd.invalidateIndex idx).valid.getD j d = psd.valid.getD j d)) := by
  refine ⟨?_, ?_, ?_⟩
  · have hm := List.mem_map_of_mem
      (fun s : DescriptorSetM => if s.bindsResource r then s.invalidate idx else s) hA
    simpa [invalidateResource, hAr] using hm
  · have hm := List.mem_map_of_mem
      (fun s : DescriptorSetM => if s.bindsResource r then s.invalidate idx else s) hB
    simpa [invalidateResource, hBr] using hm
  · intro S surface psd hpsd
    refine ⟨?_, ?_, rfl, ?_⟩
    · simp [DescriptorSetM.invalidate, alistLookup_map, hpsd]
    · intro hlt
      exact getD_set_self _ _ _ _ hlt
    · intro j d hj
      exact getD_set_ne _ _ _ _ _ (Ne.symm hj)

/-- C2, witness for `claim_C2_invalidation_fanout`: resource 5 is bound in both
concrete sets; the mutation is delivered at in-flight index 0, and set A's
invalidated copy is in the fan-out result. -/
theorem claim_C2_invalidation_fanout_witness :
    DescriptorSetM.bindsResource 5
      { layout := 0, pool := 0
        perSurfaceData := [(1, { descriptorSet := [8, 9], valid := [true, true]
                                 device := 0 })]
        descriptors := [(0, [5])], activeCount := 2 } = true ∧
    DescriptorSetM.bindsResource 5
      { layout := 0, pool := 1
        perSurfaceData := [(2, { descriptorSet := [4], valid := [true]
                                 device := 0 })]
        descriptors := [(3, [5, 6])], activeCount := 1 } = true ∧
    (DescriptorSetM.invalidate 0
        { layout := 0, pool := 0
          perSurfaceData := [(1, { descriptorSet := [8, 9], valid := [true, true]
                                   device := 0 })]
          descriptors := [(0, [5])], activeCount := 2 }
      ∈ invalidateResource 5 0
          [{ layout := 0, pool := 0
             perSurfaceData := [(1, { descriptorSet := [8, 9]
                                      valid := [true, true], device := 0 })]
             descriptors := [(0, [5])], activeCount := 2 },
           { layout := 0, pool := 1
             perSurfaceData := [(2, { descriptorSet := [4], valid := [true]
                                      device := 0 })]
             descriptors := [(3, [5, 6])], activeCount := 1 }]) :=
  ⟨by decide, by decide,
    (claim_C2_invalidation_fanout
      [{ layout := 0, pool := 0
         perSurfaceData := [(1, { descriptorSet := [8, 9], valid := [true, true]
                                  device := 0 })]
         descriptors := [(0, [5])], activeCount := 2 },
       { layout := 0, pool := 1
         perSurfaceData := [(2, { descriptorSet := [4], valid := [true]
                                  device := 0 })]
         descriptors := [(3, [5, 6])], activeCount := 1 }] 5 0
      { layout := 0, pool := 0
        perSurfaceData := [(1, { descriptorSet := [8, 9], valid := [true, true]
                                 device := 0 })]
        descriptors := [(0, [5])], activeCount := 2 }
      { layout := 0, pool := 1
        perSurfaceData := [(2, { descriptorSet := [4], valid := [true]
                                 device := 0 })]
        descriptors := [(3, [5, 6])], activeCount := 1 }
      (by decide) (by decide) (by decide) (by decide)).1⟩

/-- C3: for every object with a per-device or per-surface handle cache
(DescriptorSetLayout, DescriptorPool, DescriptorSet, Pipeline), `getHandle` for
a device or render context not yet covered by any `validate` call fails with a
"not validated" precondition error instead of returning a usable handle; for a
DescriptorSet this also holds when the surface is known but the requested
in-flight index has not been validated. -/
theorem claim_C3_getHandle_before_validate
    (l : DescriptorSetLayoutM) (p : DescriptorPoolM) (s s2 : DescriptorSetM)
    (pip : PipelineM) (device surface idx : Nat)
    (hl : alistLookup device l.perDeviceData = none)
    (hp : alistLookup device p.perDeviceData = none)
    (hs : alistLookup surface s.perSurfaceData = none)
    (hpip : alistLookup device pip.perDeviceData = none) :
    l.getHandle device = Except.error "not validated" ∧
    p.getHandle device = Except.error "not validated" ∧
    s.getHandle surface idx = Except.error "not validated" ∧
    pip.getHandle device = Except.error "not validated" ∧
    (∀ psd, alistLookup surface s2.perSurfaceData = some psd →
        psd.valid.getD idx false = false →
        s2.getHandle surface idx = Except.error "not validated") := by
  refine ⟨?_, ?_, ?_, ?_, ?_⟩
  · simp [DescriptorSetLayoutM.getHandle, cacheGetHandle, hl]
  · simp [DescriptorPoolM.getHandle, cacheGetHandle, hp]
  · simp [DescriptorSetM.getHandle, hs]
  · simp [PipelineM.getHandle, hpip]
  · intro psd hpsd hv
    simp only [DescriptorSetM.getHandle, hpsd]
    rw [hv]
    simp

/-- C3, witness for `claim_C3_getHandle_before_validate` on freshly constructed
objects (empty per-device/per-surface caches). -/
theorem claim_C3_getHandle_before_validate_witness :
    (alistLookup 0 (DescriptorSetLayoutM.create []).perDeviceData = none) ∧
    (alistLookup 0 (DescriptorPoolM.create 3 []).perDeviceData = none) ∧
    (alistLookup 0 (DescriptorSetM.create 1 2).perSurfaceData = none) ∧
    (alistLookup 0 (PipelineM.create 0 0).perDeviceData = none) ∧
    (DescriptorSetLayoutM.create []).getHandle 0 = Except.error "not validated" ∧
    (DescriptorPoolM.create 3 []).getHandle 0 = Except.error "not validated" ∧
    (DescriptorSetM.create 1 2).getHandle 0 0 = Except.error "not validated" ∧
    (PipelineM.create 0 0).getHandle 0 = Except.error "not validated" :=
  ⟨rfl, rfl, rfl, rfl,
    (claim_C3_getHandle_before_validate (DescriptorSetLayoutM.create [])
      (DescriptorPoolM.create 3 []) (DescriptorSetM.create 1 2)
      (DescriptorSetM.create 1 2) (PipelineM.create 0 0) 0 0 0
      rfl rfl rfl rfl).1,
    (claim_C3_getHandle_before_validate (DescriptorSetLayoutM.create [])
      (DescriptorPoolM.create 3 []) (DescriptorSetM.create 1 2)
      (DescriptorSetM.create 1 2) (PipelineM.create 0 0) 0 0 0
      rfl rfl rfl rfl).2.1,
    (claim_C3_getHandle_before_validate (DescriptorSetLayoutM.create [])
      (DescriptorPoolM.create 3 []) (DescriptorSetM.create 1 2)
      (DescriptorSetM.create 1 2) (PipelineM.create 0 0) 0 0 0
      rfl rfl rfl rfl).2.2.1,
    (claim_C3_getHandle_before_validate (DescriptorSetLayoutM.create [])
      (DescriptorPoolM.create 3 []) (DescriptorSetM.create 1 2)
      (DescriptorSetM.create 1 2) (PipelineM.create 0 0) 0 0 0
      rfl rfl rfl rfl).2.2.2.1⟩

/-- C4: for every per-device cached object (DescriptorSetLayout, DescriptorPool,
PipelineLayout, PipelineCache, Pipeline), validating twice in succession with no
intervening mutation performs the native creation at most once — the second call
is a no-op returning the unchanged object; and over any sequence of `validate`
calls starting from a fresh cache the native handle for a device is created
exactly once, however many consumers validate against it. -/
theorem claim_C4_validate_idempotent (cache : List (Nat × Nat)) (d : Nat)
    (seq : List Nat) (l : DescriptorSetLayoutM) (p : DescriptorPoolM)
    (pl : PipelineLayoutM) (pc : PipelineCacheM) (pip : PipelineM)
    (hd : d ∈ seq) :
    cacheValidate d (cacheValidate d cache).1 = ((cacheValidate d cache).1, false) ∧
    ((l.validate d).1.validate d = ((l.validate d).1, false)) ∧
    ((p.validate d).1.validate d = ((p.validate d).1, false)) ∧
    ((pl.validate d).1.validate d = ((pl.validate d).1, false)) ∧
    ((pc.validate d).1.validate d = ((pc.validate d).1, false)) ∧
    ((pip.validate d).1.validate d = ((pip.validate d).1, false)) ∧
    cacheCreationsFor d [] seq = 1 := by
  have key : ∀ c : List (Nat × Nat),
      cacheValidate d (cacheValidate d c).1 = ((cacheValidate d c).1, false) := by
    intro c
    have h := cacheValidate_lookup_isSome d c
    obtain ⟨hv, hh⟩ := Option.isSome_iff_exists.mp h
    exact cacheValidate_of_some d hv _ hh
  refine ⟨key cache, ?_, ?_, ?_, ?_, ?_, ?_⟩
  · simp [DescriptorSetLayoutM.validate, key]
  · simp [DescriptorPoolM.validate, key]
  · simp [PipelineLayoutM.validate, key]
  · simp [PipelineCacheM.validate, key]
  · cases hlk : alistLookup d pip.perDeviceData with
    | some pdd =>
      cases hv : pdd.valid with
      | true => simp [PipelineM.validate, hlk, hv]
      | false =>
        simp [PipelineM.validate, hlk, hv, alistLookup_insert_self]
    | none =>
      simp [PipelineM.validate, hlk, alistLookup_insert_self]
  · exact cacheCreationsFor_fresh d seq [] rfl hd

/-- C4, witness for `claim_C4_validate_idempotent`: device 2 validated by three
consumers in a row on concrete freshly constructed objects. -/
theorem claim_C4_validate_idempotent_witness :
    (2 ∈ ([2, 2, 2] : List Nat)) ∧
    cacheCreationsFor 2 [] [2, 2, 2] = 1 :=
  ⟨by decide,
    (claim_C4_validate_idempotent [] 2 [2, 2, 2]
      (DescriptorSetLayoutM.create []) (DescriptorPoolM.create 3 [])
      PipelineLayoutM.create PipelineCacheM.create (PipelineM.create 0 0)
      (by decide)).2.2.2.2.2.2⟩

/-- C5, counterexample: the claim says both Binding-Schema classes
(DescriptorSetLayout and DescriptorPool) guard `validate` with a per-object
mutex.  The member list of `DescriptorSetLayout` (Pipeline.h lines 54-75)
declares no mutex at all, while `DescriptorPool` declares one (line 95), so the
claim fails at the DescriptorSetLayout class. -/
theorem claim_C5_counterexample :
    ¬ (hasMutexMember PipelineClass.descriptorSetLayout = true ∧
       hasMutexMember PipelineClass.descriptorPool = true) := by decide

/-- C5, amended: DescriptorPool declares a per-object mutex guarding its
check-then-create `validate`, and under the lock each validate call is an atomic
check-then-create step, so any serialization of concurrent validate calls from
multiple surfaces performs the native creation at most once per device;
DescriptorSetLayout, however, declares no mutex member, so its `validate` is not
guarded by a per-object mutex. -/
theorem claim_C5_mutex_guard :
    hasMutexMember PipelineClass.descriptorPool = true ∧
    hasMutexMember PipelineClass.descriptorSetLayout = false ∧
    (∀ (cache : List (Nat × Nat)) (seq : List Nat) (d : Nat),
        cacheCreationsFor d cache seq ≤ 1) := by
  refine ⟨rfl, rfl, ?_⟩
  intro cache seq d
  exact cacheCreationsFor_le_one d seq cache

/-- C6: after `Pipeline::internalInvalidate()` every device entry of the
pipeline's per-device cache has its valid flag false, so the next `validate` for
any of those devices rebuilds the native pipeline; the cached native handles,
the set of devices and all other fields are unmodified. -/
theorem claim_C6_internalInvalidate (p : PipelineM) (d : Nat)
    (pdd : PipelinePerDeviceData)
    (h : alistLookup d p.perDeviceData = some pdd) :
    alistLookup d p.internalInvalidate.perDeviceData
        = some { pdd with valid := false } ∧
    (∀ q ∈ p.internalInvalidate.perDeviceData, q.2.valid = false) ∧
    p.internalInvalidate.perDeviceData.map (fun q => (q.1, q.2.pipeline))
        = p.perDeviceData.map (fun q => (q.1, q.2.pipeline)) ∧
    p.internalInvalidate.pipelineCache = p.pipelineCache ∧
    p.internalInvalidate.pipelineLayout = p.pipelineLayout ∧
    (p.internalInvalidate.validate d).2 = true := by
  have h1 : alistLookup d p.internalInvalidate.perDeviceData
      = some { pdd with valid := false } := by
    have h2 := alistLookup_map d
      (fun v : PipelinePerDeviceData => { v with valid := false }) p.perDeviceData
    rw [h] at h2
    simpa [PipelineM.internalInvalidate] using h2
  refine ⟨h1, ?_, ?_, rfl, rfl, ?_⟩
  · intro q hq
    simp only [PipelineM.internalInvalidate] at hq
    obtain ⟨a, _, rfl⟩ := List.mem_map.mp hq
    rfl
  · show (p.perDeviceData.map
        (fun q => (q.1, { q.2 with valid := false }))).map
          (fun q => (q.1, q.2.pipeline))
      = p.perDeviceData.map (fun q => (q.1, q.2.pipeline))
    rw [List.map_map]
    rfl
  · simp [PipelineM.validate, h1]

/-- C6, witness for `claim_C6_internalInvalidate`: a pipeline with one valid
device entry; after internalInvalidate the next validate rebuilds. -/
theorem claim_C6_internalInvalidate_witness :
    (alistLookup 4
        ({ pipelineCache := 0, pipelineLayout := 1
           perDeviceData := [(4, { pipeline := 9, valid := true })] } :
            PipelineM).perDeviceData
      = some { pipeline := 9, valid := true }) ∧
    (({ pipelineCache := 0, pipelineLayout := 1
        perDeviceData := [(4, { pipeline := 9, valid := true })] } :
          PipelineM).internalInvalidate.validate 4).2 = true :=
  ⟨rfl,
    (claim_C6_internalInvalidate
      { pipelineCache := 0, pipelineLayout := 1
        perDeviceData := [(4, { pipeline := 9, valid := true })] } 4
      { pipeline := 9, valid := true } rfl).2.2.2.2.2⟩

/-- C7: `GraphicsPipeline::hasDynamicState(state)` returns true exactly when
some element of `dynamicStates` equals `state`, and
`hasShaderStage(stage)` returns true exactly when some element of
`shaderStages` has its `stage` field equal to `stage`; both are pure queries of
the pipeline (in this embedding they are functions of the pipeline value and
cannot modify it, matching the `const` loops of Pipeline.h lines 383-397). -/
theorem claim_C7_pure_queries (p : GraphicsPipelineM) (state stage : Nat) :
    (p.hasDynamicState state = true ↔ state ∈ p.dynamicStates) ∧
    (p.hasShaderStage stage = true ↔ ∃ s ∈ p.shaderStages, s.stage = stage) :=
  ⟨scanDynamicStates_iff state p.dynamicStates,
   scanShaderStages_iff stage p.shaderStages⟩

/-- C8: invariant of DescriptorSet's per-surface state — after construction the
handle vector and the validity vector both have length equal to the in-flight
count with every slot null/invalid, and after every resize (on a state whose two
vectors have equal length) both vectors have exactly the new length and every
slot added by a growing resize holds the null handle with validity false. -/
theorem claim_C8_per_surface_invariant (ac d M : Nat) (s : PerSurfaceData)
    (hlen : s.descriptorSet.length = s.valid.length) :
    (PerSurfaceData.create ac d).descriptorSet.length = ac ∧
    (PerSurfaceData.create ac d).valid.length = ac ∧
    (∀ i, i < ac →
        (PerSurfaceData.create ac d).descriptorSet.getD i 1 = VK_NULL_HANDLE) ∧
    (∀ i, i < ac → (PerSurfaceData.create ac d).valid.getD i true = false) ∧
    (s.resize M).descriptorSet.length = M ∧
    (s.resize M).valid.length = M ∧
    (∀ i, s.valid.length ≤ i → i < M →
        (s.resize M).descriptorSet.getD i 1 = VK_NULL_HANDLE ∧
        (s.resize M).valid.getD i true = false) := by
  refine ⟨vecResize_length _ _ _, vecResize_length _ _ _, ?_, ?_,
    vecResize_length _ _ _, vecResize_length _ _ _, ?_⟩
  · intro i hi
    exact vecResize_getD_new ([] : List Nat) ac i _ _ (by simp) hi
  · intro i hi
    exact vecResize_getD_new ([] : List Bool) ac i _ _ (by simp) hi
  · intro i h1 h2
    constructor
    · exact vecResize_getD_new _ _ _ _ _ (by omega) h2
    · exact vecResize_getD_new _ _ _ _ _ h1 h2

/-- C8, witness for `claim_C8_per_surface_invariant`: construction with 2 slots
and a growing resize of a one-slot state to 3 slots. -/
theorem claim_C8_per_surface_invariant_witness :
    (({ descriptorSet := [5], valid := [true], device := 0 } :
        PerSurfaceData).descriptorSet.length
      = ({ descriptorSet := [5], valid := [true], device := 0 } :
          PerSurfaceData).valid.length) ∧
    (PerSurfaceData.resize 3
        { descriptorSet := [5], valid := [true], device := 0 }).descriptorSet.length
      = 3 ∧
    (PerSurfaceData.resize 3
        { descriptorSet := [5], valid := [true], device := 0 }).valid.length = 3 :=
  ⟨rfl,
    (claim_C8_per_surface_invariant 2 0 3
      { descriptorSet := [5], valid := [true], device := 0 } rfl).2.2.2.2.1,
    (claim_C8_per_surface_invariant 2 0 3
      { descriptorSet := [5], valid := [true], device := 0 } rfl).2.2.2.2.2.1⟩

/-- C9: a DescriptorSet constructed from a layout and a pool (no in-flight count
parameter exists) has `activeCount = 1`, and the per-surface state it creates on
first validation holds exactly one native handle and one validity flag. -/
theorem claim_C9_default_active_count (layout pool surface device idx : Nat) :
    (DescriptorSetM.create layout pool).activeCount = 1 ∧
    (((DescriptorSetM.create layout pool).validate surface device
        idx).perSurfaceData).map
          (fun q => (q.1, q.2.descriptorSet.length, q.2.valid.length))
      = [(surface, 1, 1)] := by
  refine ⟨rfl, ?_⟩
  have h1 : (DescriptorSetM.create layout pool).validate surface device idx
      = { layout := layout, pool := pool
          perSurfaceData :=
            [(surface,
              { descriptorSet := [VK_NULL_HANDLE].set idx (surface + idx + 1)
                valid := [false].set idx true
                device := device })]
          descriptors := [], activeCount := 1 } := by
    cases idx with
    | zero => rfl
    | succ n => rfl
  rw [h1]
  simp [List.length_set]

/-- C10: in `prepareStaticBuffersForRendering` and identically in
`prepareDynamicBuffersForRendering`, the `firstInstance` fields written back
into the indirect draw-command buffer form the exclusive running sum of the
per-geometry instance counts (command i gets the sum of the counts of
geometries 0..i-1), and the per-instance offset buffer is resized to the total
instance count (the sum of all per-geometry counts). -/
theorem claim_C10_first_instance_sums (numTypes : Nat)
    (instanceTypeIDs geomToType : List Nat)
    (results : List DrawIndexedIndirectCommand) (d : DrawIndexedIndirectCommand)
    (hlen : geomToType.length ≤ results.length) :
    (∀ i, i < geomToType.length →
      ((prepareStaticBuffersForRendering numTypes instanceTypeIDs geomToType
            results).1.getD i d).firstInstance
        = ((geomInstanceCounts (computeTypeCount numTypes instanceTypeIDs)
            geomToType).take i).sum ∧
      ((prepareDynamicBuffersForRendering numTypes instanceTypeIDs geomToType
            results).1.getD i d).firstInstance
        = ((geomInstanceCounts (computeTypeCount numTypes instanceTypeIDs)
            geomToType).take i).sum) ∧
    (prepareStaticBuffersForRendering numTypes instanceTypeIDs geomToType
        results).2.length
      = (geomInstanceCounts (computeTypeCount numTypes instanceTypeIDs)
          geomToType).sum ∧
    (prepareDynamicBuffersForRendering numTypes instanceTypeIDs geomToType
        results).2.length
      = (geomInstanceCounts (computeTypeCount numTypes instanceTypeIDs)
          geomToType).sum := by
  have hoslen : (geomInstanceCounts (computeTypeCount numTypes instanceTypeIDs)
      geomToType).length = geomToType.length := List.length_map _ _
  have hsum := writeFirstInstances_snd
    (geomInstanceCounts (computeTypeCount numTypes instanceTypeIDs) geomToType)
    results 0 (by rw [hoslen]; exact hlen)
  refine ⟨?_, ?_, ?_⟩
  · intro i hi
    have hg := writeFirstInstances_getD
      (geomInstanceCounts (computeTypeCount numTypes instanceTypeIDs) geomToType)
      results 0 i d (by rw [hoslen]; exact hlen) (by rw [hoslen]; exact hi)
    constructor
    · simpa [prepareStaticBuffersForRendering] using hg
    · simpa [prepareDynamicBuffersForRendering] using hg
  · simp [prepareStaticBuffersForRendering, hsum]
  · simp [prepareDynamicBuffersForRendering, hsum]

/-- C10, witness for `claim_C10_first_instance_sums`: 2 object types with
instances [0,1,0] (two of type 0, one of type 1) and three geometries of types
[0,1,0]; the per-geometry counts are [2,1,2] so the running sums are 0, 2, 3 and
the offset buffer has 5 entries. -/
theorem claim_C10_first_instance_sums_witness :
    (([0, 1, 0] : List Nat).length
      ≤ ([⟨6, 0, 0, 0, 9⟩, ⟨6, 0, 0, 0, 9⟩, ⟨6, 0, 0, 0, 9⟩] :
          List DrawIndexedIndirectCommand).length) ∧
    (prepareStaticBuffersForRendering 2 [0, 1, 0] [0, 1, 0]
        [⟨6, 0, 0, 0, 9⟩, ⟨6, 0, 0, 0, 9⟩, ⟨6, 0, 0, 0, 9⟩]).2.length
      = (geomInstanceCounts (computeTypeCount 2 [0, 1, 0]) [0, 1, 0]).sum :=
  ⟨by decide,
    (claim_C10_first_instance_sums 2 [0, 1, 0] [0, 1, 0]
      [⟨6, 0, 0, 0, 9⟩, ⟨6, 0, 0, 0, 9⟩, ⟨6, 0, 0, 0, 9⟩] ⟨0, 0, 0, 0, 0⟩
      (by decide)).2.1⟩

end Pumex
